import Mathlib

/-!
Shallow embedding of the public engine surface of the TNG trajectory
format library (source: src/src/lib/tng_io.h) together with the block,
digest, particle-mapping, topology and interval behaviour modelled from
the specification where the corresponding implementation files are not
part of the sources.  All definitions below are transcribed from the
header declarations, the enum declarations, and the documented
behaviour, in declaration order.
-/

namespace TNG

/-- The C enum `tng_function_status` (tng_io.h line 130):
`TNG_SUCCESS`, `TNG_FAILURE`, `TNG_CRITICAL`, in order. -/
inductive tng_function_status where
  | TNG_SUCCESS
  | TNG_FAILURE
  | TNG_CRITICAL
deriving DecidableEq, Fintype

/-- The C positional enum value of `tng_function_status`
(C assigns 0, 1, 2 to the constants in declaration order). -/
def tng_function_status.toCode : tng_function_status → Nat
  | .TNG_SUCCESS => 0
  | .TNG_FAILURE => 1
  | .TNG_CRITICAL => 2

/-- The C enum `tng_hash_mode` (tng_io.h line 132):
`TNG_SKIP_HASH`, `TNG_USE_HASH`. -/
inductive tng_hash_mode where
  | TNG_SKIP_HASH
  | TNG_USE_HASH
deriving DecidableEq, Fintype

/-- The C enum `tng_compression` (tng_io.h lines 97-99):
`TNG_UNCOMPRESSED`, `TNG_XTC_COMPRESSION`, `TNG_TNG_COMPRESSION`. -/
inductive tng_compression where
  | TNG_UNCOMPRESSED
  | TNG_XTC_COMPRESSION
  | TNG_TNG_COMPRESSION
deriving DecidableEq, Fintype

/-- The C positional enum value of `tng_compression` (0, 1, 2). -/
def tng_compression.toCode : tng_compression → Nat
  | .TNG_UNCOMPRESSED => 0
  | .TNG_XTC_COMPRESSION => 1
  | .TNG_TNG_COMPRESSION => 2

/-- The C enum `tng_block_type` (tng_io.h line 101). -/
inductive tng_block_type where
  | TNG_NON_TRAJECTORY_BLOCK
  | TNG_TRAJECTORY_BLOCK
deriving DecidableEq, Fintype

/-- The C enum `tng_non_trajectory_block_ids` (tng_io.h lines 103-109),
seven constants starting at 0. -/
inductive tng_non_trajectory_block_ids where
  | TNG_ENDIANNESS_AND_STRING_LENGTH
  | TNG_GENERAL_INFO
  | TNG_MOLECULES
  | TNG_TRAJECTORY_IDS_AND_NAMES
  | TNG_TRAJECTORY_FRAME_SET
  | TNG_BLOCK_TABLE_OF_CONTENTS
  | TNG_PARTICLE_MAPPING
deriving DecidableEq, Fintype

/-- The C positional enum value of `tng_non_trajectory_block_ids`
(0 through 6 in declaration order). -/
def tng_non_trajectory_block_ids.toCode : tng_non_trajectory_block_ids → Nat
  | .TNG_ENDIANNESS_AND_STRING_LENGTH => 0
  | .TNG_GENERAL_INFO => 1
  | .TNG_MOLECULES => 2
  | .TNG_TRAJECTORY_IDS_AND_NAMES => 3
  | .TNG_TRAJECTORY_FRAME_SET => 4
  | .TNG_BLOCK_TABLE_OF_CONTENTS => 5
  | .TNG_PARTICLE_MAPPING => 6

/-- The C enum `tng_trajectory_block_ids` (tng_io.h lines 111-114),
four constants starting at the explicit value 10000. -/
inductive tng_trajectory_block_ids where
  | TNG_TRAJ_BOX_SHAPE
  | TNG_TRAJ_POSITIONS
  | TNG_TRAJ_VELOCITIES
  | TNG_TRAJ_FORCES
deriving DecidableEq, Fintype

/-- The C enum value of `tng_trajectory_block_ids`
(`TNG_TRAJ_BOX_SHAPE = 10000`, the rest consecutive). -/
def tng_trajectory_block_ids.toCode : tng_trajectory_block_ids → Nat
  | .TNG_TRAJ_BOX_SHAPE => 10000
  | .TNG_TRAJ_POSITIONS => 10001
  | .TNG_TRAJ_VELOCITIES => 10002
  | .TNG_TRAJ_FORCES => 10003

/-- The C enum `tng_particle_block_data` (tng_io.h lines 117-118). -/
inductive tng_particle_block_data where
  | TNG_NON_PARTICLE_BLOCK_DATA
  | TNG_PARTICLE_BLOCK_DATA
deriving DecidableEq, Fintype

/-- The hash-algorithm space sketched in the commented-out enum
`tng_hash_type` (tng_io.h lines 120-123). -/
inductive tng_hash_type where
  | TNG_NO_HASH
  | TNG_OTHER_HASH
  | TNG_MD5_HASH
  | TNG_MD6_HASH
  | TNG_SHA0_HASH
  | TNG_SHA1_HASH
  | TNG_SHA256_HASH
  | TNG_SHA512_HASH
deriving DecidableEq, Fintype

/-- The C enum `tng_variable_n_atoms_flag` (tng_io.h lines 127-128). -/
inductive tng_variable_n_atoms_flag where
  | TNG_CONSTANT_N_ATOMS
  | TNG_VARIABLE_N_ATOMS
deriving DecidableEq, Fintype

/-- The C enum `tng_data_type` (tng_io.h lines 134-137):
`TNG_CHAR_DATA`, `TNG_INT_DATA`, `TNG_FLOAT_DATA`, `TNG_DOUBLE_DATA`. -/
inductive tng_data_type where
  | TNG_CHAR_DATA
  | TNG_INT_DATA
  | TNG_FLOAT_DATA
  | TNG_DOUBLE_DATA
deriving DecidableEq, Fintype

/-- The C positional enum value (the one-byte on-disk datatype tag)
of `tng_data_type` (0 through 3 in declaration order). -/
def tng_data_type.toTag : tng_data_type → Nat
  | .TNG_CHAR_DATA => 0
  | .TNG_INT_DATA => 1
  | .TNG_FLOAT_DATA => 2
  | .TNG_DOUBLE_DATA => 3

/-- The preprocessor constant `TNG_MAX_DATE_STR_LEN` (tng_io.h line 66). -/
def TNG_MAX_DATE_STR_LEN : Nat := 24

/-- The preprocessor constant `TNG_HASH_LEN` (tng_io.h line 68),
the byte length of an MD5 hash. -/
def TNG_HASH_LEN : Nat := 16

/-- The preprocessor constant `TNG_MAX_STR_LEN` (tng_io.h line 70). -/
def TNG_MAX_STR_LEN : Nat := 1024

/-- A fragment of the C type grammar, enough to record the parameter and
return types that the header declarations use. -/
inductive CType where
  | c_char
  | c_int64_t
  | c_void_ptr
  | c_tng_data_type_ptr
  | c_tng_function_status
deriving DecidableEq, Fintype

/-- Byte width of the C types above on the LP64 targets the library
is written for (`char` is one byte; pointers and `int64_t` are eight;
the enum return type has `int` width). -/
def CType.byteWidth : CType → Nat
  | .c_char => 1
  | .c_int64_t => 8
  | .c_void_ptr => 8
  | .c_tng_data_type_ptr => 8
  | .c_tng_function_status => 4

/-- The set of public functions declared in tng_io.h, one constructor per
declaration, in header order. -/
inductive ApiFn where
  | tng_trajectory_init
  | tng_trajectory_destroy
  | tng_input_file_set
  | tng_output_file_set
  | tng_first_program_name_set
  | tng_last_program_name_set
  | tng_first_user_name_set
  | tng_last_user_name_set
  | tng_first_computer_name_set
  | tng_last_computer_name_set
  | tng_first_signature_set
  | tng_last_signature_set
  | tng_forcefield_name_set
  | tng_medium_stride_length_get
  | tng_medium_stride_length_set
  | tng_long_stride_length_get
  | tng_long_stride_length_set
  | tng_input_file_pos_get
  | tng_output_file_pos_get
  | tng_input_file_len_get
  | tng_num_particles_get
  | tng_num_molecules_get
  | tng_num_frames_per_frame_set_get
  | tng_current_frame_set_get
  | tng_frame_set_next_frame_set_file_pos_get
  | tng_frame_set_prev_frame_set_file_pos_get
  | tng_molecule_init
  | tng_molecule_destroy
  | tng_molecule_add
  | tng_molecule_name_set
  | tng_molecule_cnt_get
  | tng_molecule_cnt_set
  | tng_molecule_chain_add
  | tng_chain_name_set
  | tng_chain_residue_add
  | tng_residue_name_set
  | tng_residue_atom_add
  | tng_atom_name_set
  | tng_atom_type_set
  | tng_particle_mapping_add
  | tng_file_headers_read
  | tng_file_headers_write
  | tng_block_read_next
  | tng_frame_set_read_next
  | tng_frame_set_write
  | tng_frame_set_new
  | tng_data_block_add
  | tng_particle_data_block_add
  | tng_frame_read_interval
  | tng_frame_write_interval
  | tng_data_values_free
  | tng_particle_data_values_free
  | tng_data_get
  | tng_data_interval_get
  | tng_particle_data_get
  | tng_particle_data_interval_get
  | tng_time_get_str
deriving DecidableEq, Fintype

/-- The declared C return type of each public function: every
declaration in tng_io.h returns `tng_function_status`. -/
def ApiFn.returnType : ApiFn → CType
  | .tng_trajectory_init => .c_tng_function_status
  | .tng_trajectory_destroy => .c_tng_function_status
  | .tng_input_file_set => .c_tng_function_status
  | .tng_output_file_set => .c_tng_function_status
  | .tng_first_program_name_set => .c_tng_function_status
  | .tng_last_program_name_set => .c_tng_function_status
  | .tng_first_user_name_set => .c_tng_function_status
  | .tng_last_user_name_set => .c_tng_function_status
  | .tng_first_computer_name_set => .c_tng_function_status
  | .tng_last_computer_name_set => .c_tng_function_status
  | .tng_first_signature_set => .c_tng_function_status
  | .tng_last_signature_set => .c_tng_function_status
  | .tng_forcefield_name_set => .c_tng_function_status
  | .tng_medium_stride_length_get => .c_tng_function_status
  | .tng_medium_stride_length_set => .c_tng_function_status
  | .tng_long_stride_length_get => .c_tng_function_status
  | .tng_long_stride_length_set => .c_tng_function_status
  | .tng_input_file_pos_get => .c_tng_function_status
  | .tng_output_file_pos_get => .c_tng_function_status
  | .tng_input_file_len_get => .c_tng_function_status
  | .tng_num_particles_get => .c_tng_function_status
  | .tng_num_molecules_get => .c_tng_function_status
  | .tng_num_frames_per_frame_set_get => .c_tng_function_status
  | .tng_current_frame_set_get => .c_tng_function_status
  | .tng_frame_set_next_frame_set_file_pos_get => .c_tng_function_status
  | .tng_frame_set_prev_frame_set_file_pos_get => .c_tng_function_status
  | .tng_molecule_init => .c_tng_function_status
  | .tng_molecule_destroy => .c_tng_function_status
  | .tng_molecule_add => .c_tng_function_status
  | .tng_molecule_name_set => .c_tng_function_status
  | .tng_molecule_cnt_get => .c_tng_function_status
  | .tng_molecule_cnt_set => .c_tng_function_status
  | .tng_molecule_chain_add => .c_tng_function_status
  | .tng_chain_name_set => .c_tng_function_status
  | .tng_chain_residue_add => .c_tng_function_status
  | .tng_residue_name_set => .c_tng_function_status
  | .tng_residue_atom_add => .c_tng_function_status
  | .tng_atom_name_set => .c_tng_function_status
  | .tng_atom_type_set => .c_tng_function_status
  | .tng_particle_mapping_add => .c_tng_function_status
  | .tng_file_headers_read => .c_tng_function_status
  | .tng_file_headers_write => .c_tng_function_status
  | .tng_block_read_next => .c_tng_function_status
  | .tng_frame_set_read_next => .c_tng_function_status
  | .tng_frame_set_write => .c_tng_function_status
  | .tng_frame_set_new => .c_tng_function_status
  | .tng_data_block_add => .c_tng_function_status
  | .tng_particle_data_block_add => .c_tng_function_status
  | .tng_frame_read_interval => .c_tng_function_status
  | .tng_frame_write_interval => .c_tng_function_status
  | .tng_data_values_free => .c_tng_function_status
  | .tng_particle_data_values_free => .c_tng_function_status
  | .tng_data_get => .c_tng_function_status
  | .tng_data_interval_get => .c_tng_function_status
  | .tng_particle_data_get => .c_tng_function_status
  | .tng_particle_data_interval_get => .c_tng_function_status
  | .tng_time_get_str => .c_tng_function_status

/-- Which declared functions carry the marker `Not implemented yet!` in
their doc comment (tng_io.h lines 808, 829, 904, 964). -/
def ApiFn.notImplementedYet : ApiFn → Bool
  | .tng_frame_read_interval => true
  | .tng_frame_write_interval => true
  | .tng_data_interval_get => true
  | .tng_particle_data_interval_get => true
  | _ => false

/-- The C type of the `datatype` parameter of `tng_data_block_add`
(tng_io.h line 758): `const char datatype`. -/
def tng_data_block_add_datatype_ctype : CType := .c_char

/-- The C type of the `datatype` parameter of `tng_particle_data_block_add`
(tng_io.h line 794): `const char datatype`. -/
def tng_particle_data_block_add_datatype_ctype : CType := .c_char

/-- The C type of the `type` out-parameter of `tng_data_get`
(tng_io.h line 900): `tng_data_type *type`. -/
def tng_data_get_type_out_ctype : CType := .c_tng_data_type_ptr

/-- The C type of the `type` out-parameter of `tng_particle_data_get`
(tng_io.h line 960): `tng_data_type *type`. -/
def tng_particle_data_get_type_out_ctype : CType := .c_tng_data_type_ptr

/-- The block digest algorithm the header fixes: the file documentation
(tng_io.h lines 10-11) and the doc comments of `tng_file_headers_read`,
`tng_file_headers_write`, `tng_block_read_next` and
`tng_frame_set_read_next` all name the per-block digest MD5. -/
def block_digest_algorithm : tng_hash_type := .TNG_MD5_HASH

/-- Spec-side acceptability condition on the digest (spec section 4.3):
any fixed, agreed-on 128-bit content hash satisfies the format. -/
def specDigestAcceptable (digestByteLen : Nat) : Prop := digestByteLen * 8 = 128

/-- The all-zero 16-byte digest, meaning `not computed` (spec section 4.2). -/
def zeroDigest : List Nat := List.replicate TNG_HASH_LEN 0

/-- A generic block, with the header fields of spec section 4.2 (the
struct `tng_gen_block` itself is opaque in the header). -/
structure tng_gen_block where
  block_id : Int
  name : List Nat
  block_version : Int
  block_type : tng_block_type
  hash : List Nat
  block_contents : List Nat
deriving DecidableEq

/-- Modelled from the spec: the per-block digest verification step of
block reading (`tng_block_read_next` / `tng_frame_set_read_next`, whose
implementation is not among the sources).  In mode `TNG_USE_HASH`, when
the stored digest is non-zero, the digest of the read contents is
recomputed and compared; a mismatch yields `TNG_FAILURE` (a minor
failure) and the contents are returned regardless.  The digest function
itself (MD5) is passed as a parameter, since its internals are outside
this engine. -/
def blockVerify (hashFn : List Nat → List Nat) (mode : tng_hash_mode)
    (b : tng_gen_block) : tng_function_status × List Nat :=
  match mode with
  | .TNG_SKIP_HASH => (.TNG_SUCCESS, b.block_contents)
  | .TNG_USE_HASH =>
      if b.hash = zeroDigest then (.TNG_SUCCESS, b.block_contents)
      else if hashFn b.block_contents = b.hash then (.TNG_SUCCESS, b.block_contents)
      else (.TNG_FAILURE, b.block_contents)

/-- Modelled from the spec: the digest stored when a block is written
(`tng_file_headers_write` / `tng_frame_set_write`): in mode
`TNG_USE_HASH` the digest of the contents is generated, in mode
`TNG_SKIP_HASH` a zero digest is stored. -/
def blockWriteDigest (hashFn : List Nat → List Nat) (mode : tng_hash_mode)
    (contents : List Nat) : List Nat :=
  match mode with
  | .TNG_SKIP_HASH => zeroDigest
  | .TNG_USE_HASH => hashFn contents

/-- The more severe of two outcome kinds (spec section 7: the session
propagates the most severe kind encountered). -/
def statusMax (a b : tng_function_status) : tng_function_status :=
  if a.toCode ≤ b.toCode then b else a

/-- Modelled from the spec: reading the blocks of a frame set
(`tng_frame_set_read_next`): every block is verified, every block's
contents are returned, and the returned status is the most severe
per-block status. -/
def frameSetBlocksRead (hashFn : List Nat → List Nat) (mode : tng_hash_mode)
    (blocks : List tng_gen_block) : tng_function_status × List (List Nat) :=
  match blocks with
  | [] => (.TNG_SUCCESS, [])
  | b :: rest =>
      (statusMax (blockVerify hashFn mode b).1 (frameSetBlocksRead hashFn mode rest).1,
       (blockVerify hashFn mode b).2 :: (frameSetBlocksRead hashFn mode rest).2)

/-- An outcome leaves the session usable unless it is critical (spec
section 7: a critical failure leaves the session in an undefined state
and it should be destroyed; success and minor failures do not). -/
def sessionRemainsUsable (s : tng_function_status) : Prop :=
  s ≠ .TNG_CRITICAL

/-- Modelled from the spec: reading one length-prefixed string (spec
section 4.1): a declared length exceeding `TNG_MAX_STR_LEN` is reported
as a minor failure; otherwise the declared number of bytes is read. -/
def tng_string_read (declaredLen : Nat) (bytes : List Nat) :
    tng_function_status × List Nat :=
  if TNG_MAX_STR_LEN < declaredLen then
    (.TNG_FAILURE, bytes.take TNG_MAX_STR_LEN)
  else
    (.TNG_SUCCESS, bytes.take declaredLen)

/-- An atom of the topology: a name and an atom-type string
(`tng_residue_atom_add`, tng_io.h lines 580-584). -/
structure tng_atom where
  name : String
  atom_type : String
deriving DecidableEq

/-- A residue: a name and its ordered atoms. -/
structure tng_residue where
  name : String
  atoms : List tng_atom
deriving DecidableEq

/-- A chain: a name and its ordered residues. -/
structure tng_chain where
  name : String
  residues : List tng_residue
deriving DecidableEq

/-- A molecule template (spec section 3): name, instance count
(`tng_molecule_cnt_set`), chains, and the molecule's direct atom list
(atoms may live outside chains; the direct list holds every atom of one
instance of the molecule). -/
structure tng_molecule where
  name : String
  cnt : Int
  chains : List tng_chain
  atoms : List tng_atom
deriving DecidableEq

/-- Number of atoms in one instance of a molecule template. -/
def tng_molecule.atomCount (m : tng_molecule) : Nat := m.atoms.length

/-- The topological total of the system (spec section 3): the sum over
all molecule templates of instance count times atoms per instance. -/
def catalogAtomTotal (mols : List tng_molecule) : Int :=
  (mols.map fun m => m.cnt * (m.atomCount : Int)).sum

/-- The fields of a trajectory frame set the claims need (the struct
`tng_trajectory_frame_set` is opaque in the header; fields per spec
section 3). -/
structure tng_trajectory_frame_set where
  first_frame : Int
  n_frames : Int
  n_particles : Int
deriving DecidableEq

/-- The fields of a trajectory session the claims need (the struct
`tng_trajectory` is opaque in the header; fields per spec section 3). -/
structure tng_trajectory where
  molecules : List tng_molecule
  var_num_atoms_flag : tng_variable_n_atoms_flag
  current_trajectory_frame_set : tng_trajectory_frame_set
deriving DecidableEq

/-- Modelled from the spec: the value returned through the
out-parameter of `tng_num_particles_get` (implementation not among the
sources; header doc, tng_io.h lines 385-386: with variable particle
numbers the count of the current frame set is returned; spec section 3:
otherwise the count is the topological total). -/
def tng_num_particles_get_model (t : tng_trajectory) : Int :=
  match t.var_num_atoms_flag with
  | .TNG_VARIABLE_N_ATOMS => t.current_trajectory_frame_set.n_particles
  | .TNG_CONSTANT_N_ATOMS => catalogAtomTotal t.molecules

/-- A particle mapping block (spec sections 3 and 4.7, and the
parameters of `tng_particle_mapping_add`, tng_io.h lines 629-633):
first global particle number, particle count, and the local-to-global
table, `n_particles` long. -/
structure tng_particle_mapping where
  first_particle_number : Int
  n_particles : Nat
  mapping_table : List Int
deriving DecidableEq

/-- One mapping block together with the payload rows of the particle
data blocks it covers: row `j` belongs to local particle index `j`.
The row type is abstract; for a positions block a row is the list of
per-frame value triples of one particle. -/
structure MappingGroup (α : Type) where
  mapping : tng_particle_mapping
  rows : List α
deriving DecidableEq

/-- Well-formedness of one mapping group (spec sections 3 and 4.7):
the table is `n_particles` long and injective, local indices are dense
`0..n_particles-1` (hence the row list has the same length). -/
def MappingGroup.wf {α : Type} (g : MappingGroup α) : Prop :=
  g.mapping.mapping_table.length = g.mapping.n_particles
    ∧ g.rows.length = g.mapping.n_particles
    ∧ g.mapping.mapping_table.Nodup

instance {α : Type} (g : MappingGroup α) : Decidable g.wf := by
  unfold MappingGroup.wf
  infer_instance

/-- Modelled from the spec: the particle-axis assembly performed by
`tng_particle_data_get` (implementation not among the sources; header
doc, tng_io.h lines 932-934 and spec section 4.6): each payload row at
local index `j` is placed at the global particle number `table[j]` of
the mapping block of its group (the nearest preceding mapping block),
and the groups of the frame set are concatenated. -/
def particle_data_assemble {α : Type} (groups : List (MappingGroup α)) :
    List (Int × α) :=
  groups.flatMap fun g => g.mapping.mapping_table.zip g.rows

/-- Pairwise disjointness of the global ranges claimed by the mapping
blocks of a frame set (spec section 4.7: no two mapping blocks in one
frame set claim the same global index). -/
def disjointGroups {α : Type} (groups : List (MappingGroup α)) : Prop :=
  groups.Pairwise fun g1 g2 =>
    g1.mapping.mapping_table.Disjoint g2.mapping.mapping_table

instance {α : Type} [DecidableEq α] (l1 l2 : List α) :
    Decidable (l1.Disjoint l2) :=
  decidable_of_iff (∀ a ∈ l1, a ∉ l2) Iff.rfl

instance {α : Type} (groups : List (MappingGroup α)) :
    Decidable (disjointGroups groups) := by
  unfold disjointGroups
  infer_instance

/-- A frame set as stored in the file, for the interval contract: first
frame index, frame count, and one data row per frame. -/
structure StoredFrameSet (α : Type) where
  first_frame : Int
  n_frames : Nat
  frameData : List α

/-- The frames of one stored frame set, numbered from its first frame. -/
def StoredFrameSet.numberedFrames {α : Type} (fs : StoredFrameSet α) :
    List (Int × α) :=
  (((List.range fs.n_frames).map fun k => fs.first_frame + (k : Int))).zip fs.frameData

/-- Modelled from the spec: the intended contract of interval reading
(spec section 9, open question; design: read a contiguous frame range
across frame-set boundaries): the frames of the file whose number lies
in `[startNr, endNr]`, in file order. -/
def framesInInterval {α : Type} (fss : List (StoredFrameSet α))
    (startNr endNr : Int) : List (Int × α) :=
  (fss.flatMap StoredFrameSet.numberedFrames).filter fun p =>
    decide (startNr ≤ p.1 ∧ p.1 ≤ endNr)

/-- Modelled from the spec: the intended contract of interval writing:
every stored frame whose number lies in `[startNr, endNr]` is replaced
by the new data for that frame number. -/
def intervalWriteResult {α : Type} (fss : List (StoredFrameSet α))
    (startNr endNr : Int) (newRow : Int → α) : List (StoredFrameSet α) :=
  fss.map fun fs =>
    { fs with
      frameData := fs.frameData.mapIdx fun k v =>
        if startNr ≤ fs.first_frame + (k : Int)
            ∧ fs.first_frame + (k : Int) ≤ endNr then
          newRow (fs.first_frame + (k : Int))
        else v }

/-- Modelled from the spec: `tng_frame_read_interval` is declared
(tng_io.h lines 821-824) but its doc comment marks it
`Not implemented yet!`; calling it performs no interval read, so no
result is produced. -/
def tng_frame_read_interval_model {α : Type} (_fss : List (StoredFrameSet α))
    (_startNr _endNr : Int) (_hm : tng_hash_mode) : Option (List (Int × α)) :=
  none

/-- Modelled from the spec: `tng_frame_write_interval` is declared
(tng_io.h lines 841-844) but marked `Not implemented yet!`; calling it
performs no interval write, so no updated store is produced. -/
def tng_frame_write_interval_model {α : Type} (_fss : List (StoredFrameSet α))
    (_startNr _endNr : Int) (_newRow : Int → α) (_hm : tng_hash_mode) :
    Option (List (StoredFrameSet α)) :=
  none

/-- Modelled from the spec: `tng_data_interval_get` is declared
(tng_io.h lines 922-928) but marked `Not implemented yet!`; calling it
produces no data. -/
def tng_data_interval_get_model {α : Type} (_fss : List (StoredFrameSet α))
    (_blockId : Int) (_startNr _endNr : Int) : Option (List (Int × α)) :=
  none

/-- The intended contract of the particle interval getter: the
assembled real-particle-numbered array restricted to the requested
global particle range. -/
def particleIntervalContract {α : Type} (groups : List (MappingGroup α))
    (firstP lastP : Int) : List (Int × α) :=
  (particle_data_assemble groups).filter fun p =>
    decide (firstP ≤ p.1 ∧ p.1 ≤ lastP)

/-- Modelled from the spec: `tng_particle_data_interval_get` is declared
(tng_io.h lines 989-997) but marked `Not implemented yet!`; calling it
produces no data. -/
def tng_particle_data_interval_get_model {α : Type}
    (_groups : List (MappingGroup α)) (_blockId : Int)
    (_startNr _endNr _firstP _lastP : Int) : Option (List (Int × α)) :=
  none

/-- A nonzero custom codec ID is available for custom codecs only when
it collides with none of the engine's reserved `tng_compression`
values. -/
def customCodecIdAllowed (n : Nat) : Prop :=
  ∀ c : tng_compression, c.toCode ≠ n

/-- The codec IDs reserved by the engine (the values of the
`tng_compression` enum). -/
def reservedCodecIds : Finset Nat := {0, 1, 2}

/-- A concrete positions block with a stored non-zero digest, used to
evaluate the digest-mismatch behaviour on one input. -/
def exC1Block : tng_gen_block :=
  { block_id := 10001
    name := []
    block_version := 1
    block_type := .TNG_TRAJECTORY_BLOCK
    hash := List.replicate 16 1
    block_contents := [7, 7, 7] }

/-- A concrete digest function whose value on the contents of
`exC1Block` differs from the stored digest. -/
def exC1HashFn : List Nat → List Nat := fun _ => List.replicate 16 2

/-- A concrete mapping group covering global particles 0 and 1. -/
def exC2Group1 : MappingGroup Nat :=
  { mapping := { first_particle_number := 0, n_particles := 2, mapping_table := [0, 1] }
    rows := [10, 11] }

/-- A concrete mapping group covering global particles 2 and 3. -/
def exC2Group2 : MappingGroup Nat :=
  { mapping := { first_particle_number := 2, n_particles := 2, mapping_table := [2, 3] }
    rows := [12, 13] }

/-- Verification always hands the block contents back to the caller,
whatever the mode and the digest comparison outcome. -/
theorem blockVerify_snd_eq (hashFn : List Nat → List Nat)
    (mode : tng_hash_mode) (b : tng_gen_block) :
    (blockVerify hashFn mode b).2 = b.block_contents := by
  cases mode with
  | TNG_SKIP_HASH => rfl
  | TNG_USE_HASH =>
      by_cases h0 : b.hash = zeroDigest
      · simp [blockVerify, h0]
      · by_cases h1 : hashFn b.block_contents = b.hash
        · simp [blockVerify, h0, h1]
        · simp [blockVerify, h0, h1]

/-- Verification never yields a critical failure. -/
theorem blockVerify_fst_ne_critical (hashFn : List Nat → List Nat)
    (mode : tng_hash_mode) (b : tng_gen_block) :
    (blockVerify hashFn mode b).1 ≠ .TNG_CRITICAL := by
  cases mode with
  | TNG_SKIP_HASH => simp [blockVerify]
  | TNG_USE_HASH =>
      by_cases h0 : b.hash = zeroDigest
      · simp [blockVerify, h0]
      · by_cases h1 : hashFn b.block_contents = b.hash
        · simp [blockVerify, h0, h1]
        · simp [blockVerify, h0, h1]

/-- Severity propagation cannot invent a critical failure. -/
theorem statusMax_ne_critical (a b : tng_function_status)
    (ha : a ≠ .TNG_CRITICAL) (hb : b ≠ .TNG_CRITICAL) :
    statusMax a b ≠ .TNG_CRITICAL := by
  revert ha hb
  revert a b
  decide

/-- A frame-set read returns the contents of every block, in order. -/
theorem frameSetBlocksRead_snd_eq (hashFn : List Nat → List Nat)
    (mode : tng_hash_mode) (blocks : List tng_gen_block) :
    (frameSetBlocksRead hashFn mode blocks).2
      = blocks.map tng_gen_block.block_contents := by
  induction blocks with
  | nil => rfl
  | cons b rest ih => simp [frameSetBlocksRead, blockVerify_snd_eq, ih]

/-- A frame-set read in which every block parses never yields a
critical failure: digest comparison outcomes are at most minor. -/
theorem frameSetBlocksRead_fst_ne_critical (hashFn : List Nat → List Nat)
    (mode : tng_hash_mode) (blocks : List tng_gen_block) :
    (frameSetBlocksRead hashFn mode blocks).1 ≠ .TNG_CRITICAL := by
  induction blocks with
  | nil => simp [frameSetBlocksRead]
  | cons b rest ih =>
      unfold frameSetBlocksRead
      exact statusMax_ne_critical _ _ (blockVerify_fst_ne_critical hashFn mode b) ih

/-- The global numbers of the assembled array are exactly the
concatenation of the mapping tables, in order. -/
theorem assemble_keys_eq {α : Type} (groups : List (MappingGroup α))
    (hwf : ∀ g ∈ groups, g.wf) :
    (particle_data_assemble groups).map Prod.fst
      = groups.flatMap fun g => g.mapping.mapping_table := by
  induction groups with
  | nil => rfl
  | cons g gs ih =>
      obtain ⟨h1, h2, -⟩ := hwf g (List.mem_cons_self g gs)
      have hlen : g.mapping.mapping_table.length ≤ g.rows.length := by omega
      simp only [particle_data_assemble, List.flatMap_cons, List.map_append]
      rw [List.map_fst_zip _ _ hlen]
      congr 1
      exact ih fun g' hg' => hwf g' (List.mem_cons_of_mem _ hg')

/-- With injective tables and pairwise-disjoint groups the
concatenation of the mapping tables has no duplicate. -/
theorem flatMap_tables_nodup {α : Type} (groups : List (MappingGroup α))
    (hwf : ∀ g ∈ groups, g.wf) (hdisj : disjointGroups groups) :
    (groups.flatMap fun g => g.mapping.mapping_table).Nodup := by
  induction groups with
  | nil => simp
  | cons g gs ih =>
      rw [List.flatMap_cons, List.nodup_append]
      obtain ⟨hd, hrest⟩ := List.pairwise_cons.mp hdisj
      refine ⟨(hwf g (List.mem_cons_self g gs)).2.2,
        ih (fun g' h => hwf g' (List.mem_cons_of_mem _ h)) hrest, ?_⟩
      intro a ha hmem
      obtain ⟨g', hg', ha'⟩ := List.mem_flatMap.mp hmem
      exact hd g' hg' ha ha'

/-- Claim C1: in integrity mode `use`, a block whose recomputed content
digest differs from the non-zero stored digest is reported as a minor
failure (`TNG_FAILURE`), never a critical one; its contents are still
returned; and a frame-set read containing such a block stays below
critical and still returns the block's data, so the session remains
usable. -/
theorem digest_mismatch_is_minor (hashFn : List Nat → List Nat)
    (b : tng_gen_block) (hnz : b.hash ≠ zeroDigest)
    (hmm : hashFn b.block_contents ≠ b.hash) :
    blockVerify hashFn .TNG_USE_HASH b = (.TNG_FAILURE, b.block_contents)
    ∧ sessionRemainsUsable (blockVerify hashFn .TNG_USE_HASH b).1
    ∧ ∀ blocks : List tng_gen_block, b ∈ blocks →
        (frameSetBlocksRead hashFn .TNG_USE_HASH blocks).1 ≠ .TNG_CRITICAL
        ∧ b.block_contents ∈ (frameSetBlocksRead hashFn .TNG_USE_HASH blocks).2 := by
  have hv : blockVerify hashFn .TNG_USE_HASH b = (.TNG_FAILURE, b.block_contents) := by
    unfold blockVerify
    rw [if_neg hnz, if_neg hmm]
  refine ⟨hv, ?_, ?_⟩
  · rw [hv]
    simp [sessionRemainsUsable]
  · intro blocks hb
    refine ⟨frameSetBlocksRead_fst_ne_critical hashFn _ blocks, ?_⟩
    rw [frameSetBlocksRead_snd_eq]
    exact List.mem_map.mpr ⟨b, hb, rfl⟩

/-- Witness for C1 on a concrete block and digest function. -/
theorem digest_mismatch_is_minor_witness :
    exC1Block.hash ≠ zeroDigest
    ∧ exC1HashFn exC1Block.block_contents ≠ exC1Block.hash
    ∧ blockVerify exC1HashFn .TNG_USE_HASH exC1Block
        = (.TNG_FAILURE, exC1Block.block_contents) :=
  ⟨by decide, by decide,
    (digest_mismatch_is_minor exC1HashFn exC1Block (by decide) (by decide)).1⟩

/-- Claim C2: with pairwise-disjoint, injective mapping blocks whose
rows are dense over local indices, the real-particle-numbered array
assembled by the particle getter places each payload row at the global
number its own mapping table gives it, and its particle axis carries
exactly the union of the mapping tables: no duplicate and no missing
global index across the union. -/
theorem particle_data_get_real_numbering {α : Type}
    (groups : List (MappingGroup α)) (hwf : ∀ g ∈ groups, g.wf)
    (hdisj : disjointGroups groups) :
    ((particle_data_assemble groups).map Prod.fst
        = groups.flatMap fun g => g.mapping.mapping_table)
    ∧ ((particle_data_assemble groups).map Prod.fst).Nodup
    ∧ ∀ g ∈ groups, ∀ p ∈ g.mapping.mapping_table.zip g.rows,
        p ∈ particle_data_assemble groups := by
  refine ⟨assemble_keys_eq groups hwf, ?_, ?_⟩
  · rw [assemble_keys_eq groups hwf]
    exact flatMap_tables_nodup groups hwf hdisj
  · intro g hg p hp
    exact List.mem_flatMap.mpr ⟨g, hg, hp⟩

/-- Witness for C2 on two concrete disjoint mapping groups. -/
theorem particle_data_get_real_numbering_witness :
    ((particle_data_assemble [exC2Group1, exC2Group2]).map Prod.fst
        = [0, 1, 2, 3])
    ∧ ((particle_data_assemble [exC2Group1, exC2Group2]).map Prod.fst).Nodup
    ∧ (2, 12) ∈ particle_data_assemble [exC2Group1, exC2Group2] := by
  have h := particle_data_get_real_numbering [exC2Group1, exC2Group2]
    (by decide) (by decide)
  refine ⟨by decide, h.2.1, ?_⟩
  exact h.2.2 exC2Group2 (by decide) (2, 12) (by decide)

/-- Claim C3: the interval operations are declared in the public
interface but marked not implemented; for every store, frame range,
particle range and integrity mode, calling them never produces the
result their intended contract describes. -/
theorem interval_ops_not_implemented :
    ApiFn.notImplementedYet .tng_frame_read_interval = true
    ∧ ApiFn.notImplementedYet .tng_frame_write_interval = true
    ∧ ApiFn.notImplementedYet .tng_data_interval_get = true
    ∧ ApiFn.notImplementedYet .tng_particle_data_interval_get = true
    ∧ (∀ (α : Type) (fss : List (StoredFrameSet α)) (s e : Int)
        (hm : tng_hash_mode),
        tng_frame_read_interval_model fss s e hm
          ≠ some (framesInInterval fss s e))
    ∧ (∀ (α : Type) (fss : List (StoredFrameSet α)) (s e : Int)
        (newRow : Int → α) (hm : tng_hash_mode),
        tng_frame_write_interval_model fss s e newRow hm
          ≠ some (intervalWriteResult fss s e newRow))
    ∧ (∀ (α : Type) (fss : List (StoredFrameSet α)) (bid s e : Int),
        tng_data_interval_get_model fss bid s e
          ≠ some (framesInInterval fss s e))
    ∧ (∀ (α : Type) (groups : List (MappingGroup α)) (bid s e fp lp : Int),
        tng_particle_data_interval_get_model groups bid s e fp lp
          ≠ some (particleIntervalContract groups fp lp)) := by
  refine ⟨rfl, rfl, rfl, rfl, ?_, ?_, ?_, ?_⟩ <;>
    intros <;> exact fun h => Option.noConfusion h

/-- Claim C4: every public operation declared in the header returns the
three-valued `tng_function_status` sum type, whose values are exactly
success 0, minor failure 1 and critical failure 2; no declaration
signals errors any other way. -/
theorem function_status_three_outcomes :
    (∀ f : ApiFn, f.returnType = .c_tng_function_status)
    ∧ tng_function_status.toCode .TNG_SUCCESS = 0
    ∧ tng_function_status.toCode .TNG_FAILURE = 1
    ∧ tng_function_status.toCode .TNG_CRITICAL = 2
    ∧ Finset.image tng_function_status.toCode Finset.univ = {0, 1, 2}
    ∧ Function.Injective tng_function_status.toCode := by
  refine ⟨by decide, rfl, rfl, rfl, by decide, by decide⟩

/-- Claim C5: the reserved block IDs are exactly 0 endianness and
string length, 1 general info, 2 molecules, 3 trajectory ids and names,
4 frame set, 5 block table of contents, 6 particle mapping, 10000 box
shape, 10001 positions, 10002 velocities, 10003 forces; every reserved
trajectory-data ID is at least 10000 and every reserved
control-metadata ID is below 10000. -/
theorem reserved_block_id_assignment :
    tng_non_trajectory_block_ids.toCode .TNG_ENDIANNESS_AND_STRING_LENGTH = 0
    ∧ tng_non_trajectory_block_ids.toCode .TNG_GENERAL_INFO = 1
    ∧ tng_non_trajectory_block_ids.toCode .TNG_MOLECULES = 2
    ∧ tng_non_trajectory_block_ids.toCode .TNG_TRAJECTORY_IDS_AND_NAMES = 3
    ∧ tng_non_trajectory_block_ids.toCode .TNG_TRAJECTORY_FRAME_SET = 4
    ∧ tng_non_trajectory_block_ids.toCode .TNG_BLOCK_TABLE_OF_CONTENTS = 5
    ∧ tng_non_trajectory_block_ids.toCode .TNG_PARTICLE_MAPPING = 6
    ∧ tng_trajectory_block_ids.toCode .TNG_TRAJ_BOX_SHAPE = 10000
    ∧ tng_trajectory_block_ids.toCode .TNG_TRAJ_POSITIONS = 10001
    ∧ tng_trajectory_block_ids.toCode .TNG_TRAJ_VELOCITIES = 10002
    ∧ tng_trajectory_block_ids.toCode .TNG_TRAJ_FORCES = 10003
    ∧ (∀ b : tng_trajectory_block_ids, 10000 ≤ b.toCode)
    ∧ (∀ b : tng_non_trajectory_block_ids, b.toCode < 10000) := by
  decide

/-- Claim C6: the one-byte datatype tag has exactly the four values 0
character, 1 32-bit integer, 2 32-bit float, 3 64-bit float; the
data-block add operations take the tag as a one-byte `char` parameter
and the data getters hand the tag back through a `tng_data_type`
out-parameter. -/
theorem datatype_tag_assignment :
    tng_data_type.toTag .TNG_CHAR_DATA = 0
    ∧ tng_data_type.toTag .TNG_INT_DATA = 1
    ∧ tng_data_type.toTag .TNG_FLOAT_DATA = 2
    ∧ tng_data_type.toTag .TNG_DOUBLE_DATA = 3
    ∧ Finset.image tng_data_type.toTag Finset.univ = {0, 1, 2, 3}
    ∧ Function.Injective tng_data_type.toTag
    ∧ CType.byteWidth tng_data_block_add_datatype_ctype = 1
    ∧ CType.byteWidth tng_particle_data_block_add_datatype_ctype = 1
    ∧ tng_data_get_type_out_ctype = .c_tng_data_type_ptr
    ∧ tng_particle_data_get_type_out_ctype = .c_tng_data_type_ptr := by
  decide

/-- Claim C7: the maximum accepted string length is 1024 bytes, date
strings are at most 24 bytes, and reading a string whose declared
length exceeds the maximum reports a minor failure, never a critical
one, leaving the session usable. -/
theorem overlong_string_minor_failure (declaredLen : Nat) (bytes : List Nat)
    (hover : TNG_MAX_STR_LEN < declaredLen) :
    TNG_MAX_STR_LEN = 1024
    ∧ TNG_MAX_DATE_STR_LEN = 24
    ∧ (tng_string_read declaredLen bytes).1 = .TNG_FAILURE
    ∧ (tng_string_read declaredLen bytes).1 ≠ .TNG_CRITICAL
    ∧ sessionRemainsUsable (tng_string_read declaredLen bytes).1 := by
  have h : tng_string_read declaredLen bytes
      = (.TNG_FAILURE, bytes.take TNG_MAX_STR_LEN) := by
    unfold tng_string_read
    rw [if_pos hover]
  refine ⟨rfl, rfl, ?_, ?_, ?_⟩ <;> rw [h] <;> simp [sessionRemainsUsable]

/-- Witness for C7 at declared length 1025. -/
theorem overlong_string_minor_failure_witness :
    TNG_MAX_STR_LEN < 1025
    ∧ (tng_string_read 1025 []).1 = .TNG_FAILURE
    ∧ (tng_string_read 1025 []).1 ≠ .TNG_CRITICAL :=
  ⟨by decide,
    (overlong_string_minor_failure 1025 [] (by decide)).2.2.1,
    (overlong_string_minor_failure 1025 [] (by decide)).2.2.2.1⟩

/-- Claim C8: with variable particle numbers the particle-count getter
returns the count of the current frame set, which may differ from the
topological total; with a constant particle count it returns the
topological total, the sum over molecule templates of instance count
times atoms per instance. -/
theorem num_particles_get_semantics (mols : List tng_molecule)
    (fs : tng_trajectory_frame_set) :
    tng_num_particles_get_model ⟨mols, .TNG_VARIABLE_N_ATOMS, fs⟩
        = fs.n_particles
    ∧ tng_num_particles_get_model ⟨mols, .TNG_CONSTANT_N_ATOMS, fs⟩
        = (mols.map fun m => m.cnt * (m.atoms.length : Int)).sum
    ∧ tng_num_particles_get_model ⟨mols, .TNG_CONSTANT_N_ATOMS, fs⟩
        = catalogAtomTotal mols
    ∧ ∃ t : tng_trajectory, t.var_num_atoms_flag = .TNG_VARIABLE_N_ATOMS
        ∧ tng_num_particles_get_model t ≠ catalogAtomTotal t.molecules := by
  refine ⟨rfl, rfl, rfl,
    ⟨⟨[], .TNG_VARIABLE_N_ATOMS, ⟨0, 0, 5⟩⟩, rfl, by decide⟩⟩

/-- Claim C9: the 16-byte per-block content digest that the header
fixes is MD5 (which satisfies the looser spec-side condition of a fixed
128-bit content hash); in integrity mode `use` the digest stored in the
file is compared to the recomputed digest of the read contents, and on
write the digest of the contents is generated for the block. -/
theorem digest_algorithm_is_md5 :
    block_digest_algorithm = .TNG_MD5_HASH
    ∧ TNG_HASH_LEN = 16
    ∧ specDigestAcceptable TNG_HASH_LEN
    ∧ (∀ (hashFn : List Nat → List Nat) (contents : List Nat),
        blockWriteDigest hashFn .TNG_USE_HASH contents = hashFn contents)
    ∧ (∀ (hashFn : List Nat → List Nat) (b : tng_gen_block),
        (blockVerify hashFn .TNG_USE_HASH b).1 = .TNG_SUCCESS
          ↔ (b.hash = zeroDigest ∨ hashFn b.block_contents = b.hash)) := by
  refine ⟨rfl, rfl, by unfold specDigestAcceptable TNG_HASH_LEN; decide,
    fun _ _ => rfl, ?_⟩
  intro hashFn b
  unfold blockVerify
  by_cases h0 : b.hash = zeroDigest
  · simp [h0]
  · by_cases h1 : hashFn b.block_contents = b.hash
    · simp [h0, h1]
    · simp [h0, h1]

/-- Claim C10: the engine's reserved codec IDs are exactly 0
uncompressed, 1 XTC compression and 2 TNG compression, so a custom
codec ID is collision-free precisely when it avoids 0, 1 and 2. -/
theorem codec_id_reservation :
    tng_compression.toCode .TNG_UNCOMPRESSED = 0
    ∧ tng_compression.toCode .TNG_XTC_COMPRESSION = 1
    ∧ tng_compression.toCode .TNG_TNG_COMPRESSION = 2
    ∧ Finset.image tng_compression.toCode Finset.univ = reservedCodecIds
    ∧ ∀ n : Nat, customCodecIdAllowed n ↔ n ∉ reservedCodecIds := by
  refine ⟨rfl, rfl, rfl, by decide, ?_⟩
  intro n
  unfold customCodecIdAllowed reservedCodecIds
  simp only [Finset.mem_insert, Finset.mem_singleton]
  constructor
  · intro h hn
    rcases hn with h0 | h1 | h2
    · exact h .TNG_UNCOMPRESSED h0.symm
    · exact h .TNG_XTC_COMPRESSION h1.symm
    · exact h .TNG_TNG_COMPRESSION h2.symm
  · intro h c
    push_neg at h
    cases c with
    | TNG_UNCOMPRESSED => exact fun e => h.1 e.symm
    | TNG_XTC_COMPRESSION => exact fun e => h.2.1 e.symm
    | TNG_TNG_COMPRESSION => exact fun e => h.2.2 e.symm

end TNG
